import Mathlib

/-!
Verification development for the `ytinfo` scraping library
(`ytinfo/scraping.py`, `ytinfo/exceptions.py`).

The Python code is shallowly embedded:
  * parsed JSON values (the result of `json.loads`) are `Json` trees,
    with `Json.null` also standing for Python `None`;
  * Python exceptions become an explicit `PyErr` sum, and fallible code
    returns `Except PyErr`;
  * the network transport (`requests.Session.get` / `.post`) is an
    explicit oracle passed to each fetching function: a function from
    attempt numbers to transport events (connection error, or a response
    with a status code and pre-parsed page content).  The model also
    counts/traces the transport requests actually issued, so that
    "number of attempts" is observable;
  * `time.monotonic()` is an oracle `clock : Nat → Int`, sampled at the
    same program points as in the source, with an explicit call counter;
  * Python's `re` patterns used by the source are implemented directly
    as executable scanning functions over `List Char` with Python's
    leftmost-match semantics (character classes restricted to ASCII,
    which covers every input in this development).

`dict_tryget` comes from `ytinfo/utils.py`, which is not part of the
sources available here; it is modelled from the specification (section
"Safe Nested Lookup") and marked as such below.
-/

set_option autoImplicit false

namespace Ytinfo

/-- A parsed JSON value; `null` also models Python `None`
(`json.loads` maps JSON `null` to `None`). -/
inductive Json where
  | null
  | bool (b : Bool)
  | num (n : Int)
  | str (s : String)
  | arr (xs : List Json)
  | obj (fs : List (String × Json))

/-- The Python exceptions that can arise in the embedded code.
`keyError`, `typeError`, `valueError` and `indexError` are Python
builtins; `connectionError` is `requests.ConnectionError`; the last
three are the classes defined in `ytinfo/exceptions.py`. -/
inductive PyErr where
  | keyError (key : String)
  | typeError
  | valueError
  | indexError
  | connectionError
  | timeoutError (msg : String)
  | retryError (msg : String)
  | libError (msg : String)
deriving DecidableEq, Repr

/-- The exception classes defined by `ytinfo/exceptions.py`:
`Error(Exception)`, `RetryError(Error)`, `TimeoutError(Error)`. -/
def exceptionClasses : List String := ["Error", "RetryError", "TimeoutError"]

/-- Whether an exception is one of the typed library errors defined in
`ytinfo/exceptions.py` (as opposed to a Python builtin or a
`requests` exception). -/
def PyErr.isLibError : PyErr → Bool
  | .timeoutError _ => true
  | .retryError _ => true
  | .libError _ => true
  | _ => false

/-- A Python dict with string keys, in insertion order. -/
abbrev PyDict := List (String × Json)

/-- Dict read access `d[k]` returning `Option` (used to observe records). -/
def dget (d : PyDict) (k : String) : Option Json :=
  (d.find? (fun p => p.1 == k)).map (·.2)

/-- Dict assignment `d[k] = v`: updates the entry in place if the key
exists (keeping its position — dict keys are unique), appends at the
end otherwise. -/
def dset : PyDict → String → Json → PyDict
  | [], k, v => [(k, v)]
  | (k2, v2) :: d, k, v =>
    if k2 == k then (k, v) :: d
    else (k2, v2) :: dset d k v

/-- Python subscription `j[k]` with a string key: a dict lookup raising
`KeyError` when the key is absent, `TypeError` on non-dict values. -/
def getKey (j : Json) (k : String) : Except PyErr Json :=
  match j with
  | .obj fs =>
    match fs.find? (fun p => p.1 == k) with
    | some p => .ok p.2
    | none => .error (.keyError k)
  | _ => .error .typeError

/-- Python subscription `j[0]`: first element of a list (`IndexError`
when empty), first character of a string, `KeyError` on a dict without
an integer key (our dicts have only string keys), `TypeError` otherwise. -/
def jIndex0 (j : Json) : Except PyErr Json :=
  match j with
  | .arr (x :: _) => .ok x
  | .arr [] => .error .indexError
  | .str s =>
    match s.data with
    | c :: _ => .ok (.str ⟨[c]⟩)
    | [] => .error .indexError
  | .obj _ => .error (.keyError "0")
  | _ => .error .typeError

/-- Python truthiness of a value. -/
def truthy : Json → Bool
  | .null => false
  | .bool b => b
  | .num n => !(n == 0)
  | .str s => !(s == "")
  | .arr xs => !xs.isEmpty
  | .obj fs => !fs.isEmpty

/-- Python `a or b`. -/
def pyOr (a b : Json) : Json := if truthy a then a else b

/-- Python `j == s` for a string literal `s`: true only on an equal string. -/
def pyEqStr (j : Json) (s : String) : Bool :=
  match j with
  | .str t => t == s
  | _ => false

/-- Whether the value is Python `None` (for `is None` / `is not None`). -/
def Json.isNull : Json → Bool
  | .null => true
  | _ => false

/-- Substring containment on character lists (Python `needle in hay`
for strings, and `str.count(needle) == 0` negated). -/
def containsSub : List Char → List Char → Bool
  | _, [] => true
  | [], _ :: _ => false
  | c :: cs, needle =>
    needle.isPrefixOf (c :: cs) || containsSub cs needle

/-- Substring containment on strings. -/
def strContains (hay needle : String) : Bool :=
  containsSub hay.data needle.data

/-- Python `k in j` for a string `k`: key test on dicts, membership
(with string equality) on lists, substring test on strings,
`TypeError` otherwise. -/
def pyIn (k : String) (j : Json) : Except PyErr Bool :=
  match j with
  | .obj fs => .ok (fs.any (fun p => p.1 == k))
  | .arr xs =>
    .ok (xs.any (fun x => match x with | .str s => s == k | _ => false))
  | .str s => .ok (strContains s k)
  | _ => .error .typeError

/-- Python iteration `for x in j`: list elements, the keys of a dict,
the characters of a string (as one-character strings), `TypeError` on
non-iterable values. -/
def pyIter (j : Json) : Except PyErr (List Json) :=
  match j with
  | .arr xs => .ok xs
  | .obj fs => .ok (fs.map (fun p => .str p.1))
  | .str s => .ok (s.data.map (fun c => .str ⟨[c]⟩))
  | _ => .error .typeError

/-- Modelled from the spec: `dict_tryget` from `ytinfo/utils.py`, whose
source is not available here.  Per the "Safe Nested Lookup" contract it
descends into the container along the key sequence and returns the
caller-supplied default when a key is absent or the current value is
not a container; it never raises.  All call sites in `scraping.py`
use string keys, so only those are modelled. -/
def dict_tryget (root : Json) (keys : List String) (default : Json) : Json :=
  match keys with
  | [] => root
  | k :: ks =>
    match root with
    | .obj fs =>
      match fs.find? (fun p => p.1 == k) with
      | some p => dict_tryget p.2 ks default
      | none => default
    | _ => default

/-- Lift an optional string to the Python value stored for it
(`None` when absent). -/
def optJson : Option String → Json
  | none => .null
  | some s => .str s

/-! ## Character classes and pattern matching

The regular expressions used by `scraping.py` are implemented as
deterministic scanning functions.  Each pattern below is simple enough
(its adjacent pieces have disjoint first-character classes) that greedy
maximal-munch scanning coincides with Python backtracking semantics;
`search` semantics (leftmost match) are implemented by trying every
start position left to right.  Character classes (`\w`, `\d`, `\s`)
are modelled over ASCII. -/

/-- Python `[\w-]` (ASCII fragment): letters, digits, underscore, hyphen. -/
def isWordChar (c : Char) : Bool :=
  c.isAlpha || c.isDigit || c == '_' || c == '-'

/-- Python `\s` (ASCII fragment). -/
def pyIsSpace (c : Char) : Bool :=
  c == ' ' || c == '\t' || c == '\n' || c == '\r' ||
    c == Char.ofNat 11 || c == Char.ofNat 12

/-- A nonempty run of `[\w-]` characters spanning the whole list, with
`$` also accepting one trailing newline (Python `$` semantics). -/
def idCore (cs : List Char) : Bool :=
  let core := if cs.getLast? == some '\n' then cs.dropLast else cs
  !core.isEmpty && core.all isWordChar

/-- Embeds `re.search(r"^[\w-]+$", s) is not None`: the whole string is a
nonempty identifier-like token (used by `get_data`, `get_thumbnail`
and `get_channel_videos` to distinguish bare ids from URLs). -/
def isIdLike (s : String) : Bool := idCore s.data

/-- Embeds `re.match(r"^@[\w-]+$", s) is not None` (used by
`get_channel_videos` for handle-form inputs). -/
def isHandleLike (s : String) : Bool :=
  match s.data with
  | '@' :: rest => idCore rest
  | _ => false

/-- Match a literal character sequence at the head of the input,
returning the rest. -/
def matchLit : List Char → List Char → Option (List Char)
  | [], cs => some cs
  | _ :: _, [] => none
  | l :: ls, c :: cs => if c == l then matchLit ls cs else none

/-- Match `_get_videoid`'s pattern
`https?://(?:www\.youtube\.com/watch\?v=|youtu\.be/)([\w-]+)` at the
head of the input, returning the capture group. -/
def matchVideoIdAt (cs : List Char) : Option String := do
  let cs ← matchLit "http".data cs
  let cs := match cs with
    | 's' :: rest => rest
    | rest => rest
  let cs ← matchLit "://".data cs
  let cs ← (matchLit "www.youtube.com/watch?v=".data cs).orElse
    (fun _ => matchLit "youtu.be/".data cs)
  match cs.takeWhile isWordChar with
  | [] => none
  | ws => some ⟨ws⟩

/-- Leftmost-match scan for `matchVideoIdAt`. -/
def vidSearch : List Char → Option String
  | [] => none
  | c :: rest =>
    match matchVideoIdAt (c :: rest) with
    | some r => some r
    | none => vidSearch rest

/-- Embeds `_get_videoid(url)`: extract the video identifier from a canonical
watch URL or a short URL, `None` when the pattern does not occur. -/
def get_videoid (url : String) : Option String := vidSearch url.data

/-- The two quote characters accepted by the likes-label pattern. -/
def isQuote (c : Char) : Bool := c == Char.ofNat 39 || c == Char.ofNat 34

/-- Match the pattern
`['\"]label['\"]\s*:\s*['\"]([\d,\.]+|No)\s+<word>['\"]` at the head of
the input, returning the capture group. -/
def matchLabelAt (word : List Char) (cs : List Char) : Option String := do
  let (q1, cs) ← match cs with
    | c :: rest => if isQuote c then some (c, rest) else none
    | [] => none
  let _ := q1
  let cs ← matchLit "label".data cs
  let cs ← match cs with
    | c :: rest => if isQuote c then some rest else none
    | [] => none
  let cs := cs.dropWhile pyIsSpace
  let cs ← matchLit ":".data cs
  let cs := cs.dropWhile pyIsSpace
  let cs ← match cs with
    | c :: rest => if isQuote c then some rest else none
    | [] => none
  let digits := cs.takeWhile (fun c => c.isDigit || c == ',' || c == '.')
  let (cap, cs) ←
    if digits.isEmpty then
      (matchLit "No".data cs).map (fun rest => (("No" : String), rest))
    else
      some ((⟨digits⟩ : String), cs.drop digits.length)
  let ws := cs.takeWhile pyIsSpace
  if ws.isEmpty then none else
  let cs := cs.drop ws.length
  let cs ← matchLit word cs
  match cs with
  | c :: _ => if isQuote c then some cap else none
  | [] => none

/-- Leftmost-match scan for `matchLabelAt`. -/
def labelScan (word : List Char) : List Char → Option String
  | [] => none
  | c :: rest =>
    match matchLabelAt word (c :: rest) with
    | some r => some r
    | none => labelScan word rest

/-- Performs `re.search` of the likes/dislikes label pattern (the source builds
it as `pat % word`), returning the captured count text. -/
def searchLabel (content word : String) : Option String :=
  labelScan word.data content.data

/-- Numeric value of a digit list (most significant first). -/
def digitsToNat (cs : List Char) : Nat :=
  cs.foldl (fun acc c => 10 * acc + (c.toNat - 48)) 0

/-- Characters surviving the separator-stripping substitution
`re.sub("[,\\.]", '', m[1])`. -/
def stripSeps (c : String) : List Char :=
  c.data.filter (fun ch => !(ch == ',' || ch == '.'))

/-- Computes `0 if m[1] == 'No' else int(re.sub("[,\\.]", '', m[1]))`
(lines 161, 164-165): strip commas and dots, then parse as an integer
(`ValueError` when nothing parseable is left, as `int` of an empty
string raises). -/
def strToIntStripped (c : String) : Except PyErr Json :=
  if c == "No" then .ok (.num 0)
  else if (stripSeps c).isEmpty then .error .valueError
  else if (stripSeps c).all Char.isDigit then .ok (.num (digitsToNat (stripSeps c)))
  else .error .valueError

/-! ## Python `str()` of parsed JSON values

`extract_info` and `get_chat_available` serialize (sub)trees of the
parsed data with `str(...)`, which for containers is `repr`.  The repr
of a string is modelled for printable characters plus the escapes that
actually occur (`\\`, quotes, newline, tab, carriage return); other
non-printables do not occur in this development. -/

/-- Escape one character inside a Python string repr with quote `q`. -/
def pyEscChar (q c : Char) : List Char :=
  if c == '\\' then ['\\', '\\']
  else if c == q then ['\\', q]
  else if c == '\n' then ['\\', 'n']
  else if c == '\t' then ['\\', 't']
  else if c == '\r' then ['\\', 'r']
  else [c]

/-- Python `repr` of a `str`: single-quoted, switching to double quotes
when the text contains a single quote but no double quote. -/
def pyReprStr (s : String) : String :=
  let q :=
    if s.data.contains (Char.ofNat 39) && !(s.data.contains (Char.ofNat 34))
    then Char.ofNat 34 else Char.ofNat 39
  ⟨q :: (s.data.map (pyEscChar q)).flatten ++ [q]⟩

mutual

/-- Python `str()`/`repr` of a parsed JSON value (`None`, `True`,
`False`, ints, quoted strings, lists, dicts). -/
def pyRepr : Json → String
  | .null => "None"
  | .bool true => "True"
  | .bool false => "False"
  | .num n => toString n
  | .str s => pyReprStr s
  | .arr xs => "[" ++ String.intercalate ", " (pyReprList xs) ++ "]"
  | .obj fs => "\x7b" ++ String.intercalate ", " (pyReprFields fs) ++ "\x7d"

/-- repr of the elements of a list. -/
def pyReprList : List Json → List String
  | [] => []
  | x :: xs => pyRepr x :: pyReprList xs

/-- repr of the entries of a dict. -/
def pyReprFields : List (String × Json) → List String
  | [] => []
  | (k, v) :: fs => (pyReprStr k ++ ": " ++ pyRepr v) :: pyReprFields fs

end

/-- Python `str()`: identity on strings, `repr` on everything else. -/
def pyStr : Json → String
  | .str s => s
  | j => pyRepr j

/-! ## Extraction (`get_status`, `get_chat_available`, `extract_info`) -/

/-- Embeds `get_status(data)` from `scraping.py` lines 89-100: classify the
playability status, disambiguating `LOGIN_REQUIRED` into
`AGE_RESTRICTED` (a `reason` field present) or `PRIVATE` (a `messages`
field present). -/
def get_status (data : Json) : Except PyErr Json := do
  let ipr ← getKey data "ytInitialPlayerResponse"
  let ps ← getKey ipr "playabilityStatus"
  let st ← getKey ps "status"
  if pyEqStr st "LOGIN_REQUIRED" then
    if (← pyIn "reason" ps) then return Json.str "AGE_RESTRICTED"
    else if (← pyIn "messages" ps) then return Json.str "PRIVATE"
    else return st
  else return st

/-- Embeds `get_chat_available(data)` (lines 179-184): a live-chat renderer
node is present and the serialized page text does not contain the
chat-replay-unavailable phrase. -/
def get_chat_available (data : Json) : Bool :=
  !(dict_tryget data ["ytInitialData", "contents", "twoColumnWatchNextResults",
      "conversationBar", "liveChatRenderer"] .null).isNull
    && !(strContains (pyStr data) "Live chat replay is not available")

/-- The chapter list comprehension of `extract_info` (lines 150-152):
each entry is mapped to `{title, starttime}` via raw subscriptions. -/
def chaptersOf : List Json → Except PyErr (List Json)
  | [] => .ok []
  | c :: cs => do
    let cr ← getKey c "chapterRenderer"
    let t ← getKey cr "title"
    let ts ← getKey t "simpleText"
    let ms ← getKey cr "timeRangeStartMillis"
    let rest ← chaptersOf cs
    return .obj [("title", ts), ("starttime", ms)] :: rest

/-- Embeds `extract_info(data)` (lines 103-176).  The capture timestamp
`datetime.utcnow().isoformat()` is an oracle argument `now`. -/
def extract_info (now : String) (data : Json) : Except PyErr PyDict := do
  let status ← get_status data
  let ret : PyDict := dset (dset [] "status" status) "timestamp" (.str now)
  if pyEqStr status "ERROR" || pyEqStr status "PRIVATE" then
    let urlv ← getKey data "url"
    match urlv with
    | .str u => return dset ret "id" (optJson (get_videoid u))
    | _ => .error .typeError
  else
  let ipr ← getKey data "ytInitialPlayerResponse"
  let details ← getKey ipr "videoDetails"
  let idata ← getKey data "ytInitialData"
  let microformat :=
    pyOr (dict_tryget ipr ["microformat", "playerMicroformatRenderer"] .null)
      (dict_tryget ipr ["microformat", "microformatDataRenderer"] .null)
  let ret := dset ret "id" (← getKey details "videoId")
  let ret := dset ret "author" (← getKey details "author")
  let ret := dset ret "channel_id" (← getKey details "channelId")
  let ret := dset ret "title" (← getKey details "title")
  let ret := dset ret "description" (← getKey details "shortDescription")
  let ret := dset ret "length" (← getKey details "lengthSeconds")
  let ret ← if !microformat.isNull then do
      let pd ← getKey microformat "publishDate"
      let ud ← getKey microformat "uploadDate"
      pure (dset (dset ret "publish_date" pd) "upload_date" ud)
    else pure ret
  let ret := dset ret "live_content" (← getKey details "isLiveContent")
  let ret := dset ret "chat_available" (.bool (get_chat_available data))
  let ret := dset ret "average_rating" (dict_tryget details ["averageRating"] .null)
  let ret := dset ret "views" (← getKey details "viewCount")
  let ret := dset ret "family_safe" (dict_tryget microformat ["isFamilySafe"] .null)
  let ret := dset ret "keywords" (dict_tryget details ["keywords"] (.arr []))
  let chapters := dict_tryget idata ["playerOverlays", "playerOverlayRenderer",
      "decoratedPlayerBarRenderer", "decoratedPlayerBarRenderer",
      "playerBar", "chapteredPlayerBarRenderer", "chapters"] (.arr [])
  let ret ← if !chapters.isNull then do
      let items ← pyIter chapters
      let mapped ← chaptersOf items
      pure (dset ret "chapters" (.arr mapped))
    else pure ret
  let ret := dset (dset ret "likes" .null) "dislikes" .null
  let content := pyStr (dict_tryget idata ["contents", "twoColumnWatchNextResults",
      "results", "results", "contents"] .null)
  let ret ← match searchLabel content "likes" with
    | some c => do
      let v ← strToIntStripped c
      pure (dset ret "likes" v)
    | none => pure ret
  let ret ← match searchLabel content "dislikes" with
    | some c => do
      let v ← strToIntStripped c
      pure (dset ret "dislikes" v)
    | none => pure ret
  let ret := dset ret "unlisted" (dict_tryget microformat ["isUnlisted"] .null)
  let ret := dset ret "category" (dict_tryget microformat ["category"] .null)
  let ret := dset ret "start_time"
    (dict_tryget microformat ["liveBroadcastDetails", "startTimestamp"] .null)
  let ret := dset ret "end_time"
    (dict_tryget microformat ["liveBroadcastDetails", "endTimestamp"] .null)
  return ret

/-! ## Bounded-retry fetching (`get_data`, lines 41-86)

The transport is an oracle mapping the attempt number to what
`session.get` does on that attempt: raise a connection error, or
return a response with a status code and a page text.  A page text is
represented by what the two regex extractors would produce on it.
`time.monotonic()` is an oracle `clock` indexed by the call counter,
threaded exactly as the source samples it.  The result records how
many transport requests were issued. -/

/-- A watch-page text, represented by the outcome of the two
blob-extraction functions on it. -/
structure PageText where
  ipr : Option Json
  idata : Option Json

/-- Embeds `_extract_initial_player_response(text)` (lines 20-24): regex
search for the `ytInitialPlayerResponse` assignment plus `json.loads`,
`None` when the pattern is absent or parsing fails. -/
def extract_initial_player_response (t : PageText) : Option Json := t.ipr

/-- Embeds `_extract_initial_data(text)` (lines 27-31). -/
def extract_initial_data (t : PageText) : Option Json := t.idata

/-- One attempt's transport outcome for `get_data`. -/
inductive DataEv where
  | connError
  | resp (status : Nat) (text : PageText)

/-- Outcome of a fetch: the returned value or the raised exception,
plus the number of transport requests issued. -/
structure FetchOut (α : Type) where
  result : Except PyErr α
  calls : Nat
deriving Repr

/-- URL resolution at the top of `get_data` (lines 49-52). -/
def resolve_watch_url (in_str : String) : String :=
  if isIdLike in_str then "https://www.youtube.com/watch?v=" ++ in_str
  else in_str

/-- The retry loop of `get_data` (lines 58-86).  `fuel` is the number
of iterations left (`retries+1` at entry), `ai` the attempt index into
the transport oracle, `ci` the clock call counter.  A non-200 status
or a missing/unparseable blob logs a warning and continues; a
connection error propagates (no handler in `get_data`); an elapsed
deadline raises `TimeoutError` before issuing the request. -/
def get_data_loop (transport : Nat → DataEv) (clock : Nat → Int)
    (url : String) (endt : Option Int) :
    Nat → Nat → Nat → FetchOut Json
  | 0, _, _ => ⟨.error (.retryError ("Reached maximum retries for " ++ url)), 0⟩
  | fuel + 1, ai, ci =>
    let attempt : Nat → FetchOut Json := fun ci2 =>
      match transport ai with
      | .connError => ⟨.error .connectionError, 1⟩
      | .resp status text =>
        if status == 200 then
          match extract_initial_player_response text, extract_initial_data text with
          | some pr, some idt =>
            ⟨.ok (.obj [("url", .str url),
              ("ytInitialPlayerResponse", pr), ("ytInitialData", idt)]), 1⟩
          | _, _ =>
            let r := get_data_loop transport clock url endt fuel (ai + 1) ci2
            ⟨r.result, r.calls + 1⟩
        else
          let r := get_data_loop transport clock url endt fuel (ai + 1) ci2
          ⟨r.result, r.calls + 1⟩
    match endt with
    | none => attempt ci
    | some e =>
      if e - clock ci ≤ 0 then
        ⟨.error (.timeoutError ("Timed out while loading " ++ url)), 0⟩
      else attempt (ci + 1)

/-- Embeds `get_data(in_str, session, retries, timeout)` (lines 41-86).  Note
`if timeout:` uses Python truthiness, so `timeout=0` configures no
deadline at all; a truthy timeout samples the clock once to compute
the absolute deadline. -/
def get_data (transport : Nat → DataEv) (clock : Nat → Int)
    (in_str : String) (retries : Nat) (timeout : Option Int) : FetchOut Json :=
  let url := resolve_watch_url in_str
  match timeout with
  | some t =>
    if t == 0 then get_data_loop transport clock url none (retries + 1) 0 0
    else get_data_loop transport clock url (some (clock 0 + t)) (retries + 1) 0 1
  | none => get_data_loop transport clock url none (retries + 1) 0 0

/-! ## Thumbnail fetching (`get_thumbnail`, lines 187-233) -/

/-- One attempt's transport outcome for `get_thumbnail`; the response
content models the raw bytes. -/
inductive ThumbEv where
  | connError
  | resp (status : Nat) (content : String)

/-- The retry loop of `get_thumbnail` (lines 214-233): a 200 response
returns its content; a non-200 status logs a warning; a connection
error is caught (`except requests.ConnectionError`), logged, and the
loop continues; an elapsed deadline raises `TimeoutError` before
issuing the request. -/
def get_thumbnail_loop (transport : Nat → ThumbEv) (clock : Nat → Int)
    (url : String) (endt : Option Int) :
    Nat → Nat → Nat → FetchOut String
  | 0, _, _ => ⟨.error (.retryError ("Reached maximum retries for " ++ url)), 0⟩
  | fuel + 1, ai, ci =>
    let attempt : Nat → FetchOut String := fun ci2 =>
      match transport ai with
      | .connError =>
        let r := get_thumbnail_loop transport clock url endt fuel (ai + 1) ci2
        ⟨r.result, r.calls + 1⟩
      | .resp status content =>
        if status == 200 then ⟨.ok content, 1⟩
        else
          let r := get_thumbnail_loop transport clock url endt fuel (ai + 1) ci2
          ⟨r.result, r.calls + 1⟩
    match endt with
    | none => attempt ci
    | some e =>
      if e - clock ci ≤ 0 then
        ⟨.error (.timeoutError ("Timed out while loading " ++ url)), 0⟩
      else attempt (ci + 1)

/-- Embeds `get_thumbnail(in_str, format, session, retries, timeout)`
(lines 187-233): resolve the video id (an unextractable URL raises the
base `Error` before any request), resolve the thumbnail URL from the
format selector (an unknown selector raises the base `Error`), then
run the bounded-retry loop with the same deadline rule as `get_data`. -/
def get_thumbnail (transport : Nat → ThumbEv) (clock : Nat → Int)
    (in_str format : String) (retries : Nat) (timeout : Option Int) :
    FetchOut String :=
  let idOpt := if isIdLike in_str then some in_str else get_videoid in_str
  match idOpt with
  | none => ⟨.error (.libError ("Invalid input string: " ++ in_str)), 0⟩
  | some id =>
    let urlOpt :=
      if format == "maxres" then
        some ("https://i.ytimg.com/vi/" ++ id ++ "/maxresdefault.jpg")
      else if format == "hq" then
        some ("https://i.ytimg.com/vi/" ++ id ++ "/hqdefault.jpg")
      else none
    match urlOpt with
    | none => ⟨.error (.libError ("Unknown thumbnail format " ++ format)), 0⟩
    | some url =>
      match timeout with
      | some t =>
        if t == 0 then get_thumbnail_loop transport clock url none (retries + 1) 0 0
        else get_thumbnail_loop transport clock url (some (clock 0 + t)) (retries + 1) 0 1
      | none => get_thumbnail_loop transport clock url none (retries + 1) 0 0

/-! ## Channel listing (`get_channel_videos`, lines 236-343)

The GET transport is an oracle `tget : Nat → Nat → GetEv` indexed by
the sub-listing page (0 = `/videos`, 1 = `/streams`, 2 = `/shorts`)
and the attempt number; a GET response carries the outcome of
`_extract_initial_data` on its text.  The continuation POSTs to the
browse endpoint consume a finite stream `List PostEv` in order (a POST
response carries the outcome of `json.loads` on its text, `none`
meaning a parse failure, which raises `ValueError` as
`json.JSONDecodeError` does); when the stream is exhausted a further
POST fails with a connection error.  Every issued request is recorded
in a trace. -/

/-- One GET attempt's transport outcome for `get_channel_videos`. -/
inductive GetEv where
  | connError
  | resp (status : Nat) (idata : Option Json)

/-- One continuation POST's transport outcome. -/
inductive PostEv where
  | connError
  | resp (body : Option Json)

/-- A transport request actually issued: a GET for sub-listing page
`u`, attempt `a`, or a continuation POST. -/
inductive TCall where
  | get (u a : Nat)
  | post
deriving DecidableEq, Repr

/-- The mutable state of one `get_channel_videos` call: the `videos`
accumulator, the clock call counter, the remaining POST stream, and
the request trace. -/
structure ChanSt where
  videos : List Json
  clk : Nat
  posts : List PostEv
  trace : List TCall

/-- Embeds `data['contents']['twoColumnBrowseResultsRenderer']['tabs']`
(line 281, outside any handler). -/
def tabsOf (d : Json) : Except PyErr Json := do
  let a ← getKey d "contents"
  let b ← getKey a "twoColumnBrowseResultsRenderer"
  getKey b "tabs"

/-- Embeds `tab['tabRenderer']['content']['richGridRenderer']['contents']`
(line 286, inside the per-tab `try`). -/
def gridItemsOf (tab : Json) : Except PyErr Json := do
  let a ← getKey tab "tabRenderer"
  let b ← getKey a "content"
  let c ← getKey b "richGridRenderer"
  getKey c "contents"

/-- The continuation token path (line 299). -/
def tokenOf (cont : Json) : Except PyErr Json := do
  let a ← getKey cont "continuationItemRenderer"
  let b ← getKey a "continuationEndpoint"
  let c ← getKey b "continuationCommand"
  getKey c "token"

/-- The continuation-response item path (lines 329-330). -/
def contItemsOf (body : Json) : Except PyErr Json := do
  let a ← getKey body "onResponseReceivedActions"
  let b ← jIndex0 a
  let c ← getKey b "appendContinuationItemsAction"
  getKey c "continuationItems"

/-- Embeds `item['richItemRenderer']['content']['videoRenderer']['videoId']`
(line 336, raw subscriptions on continuation pages). -/
def vid2Of (item : Json) : Except PyErr Json := do
  let a ← getKey item "richItemRenderer"
  let b ← getKey a "content"
  let c ← getKey b "videoRenderer"
  getKey c "videoId"

/-- First-page item walk (lines 289-295): a non-continuation item
appends the or-chain of the two safe lookups (possibly `None`); a
continuation marker is recorded (last one wins).  Returns the extended
accumulator, the recorded marker, and a raised exception if any. -/
def walkItems1 : List Json → List Json → Option Json →
    List Json × Option Json × Option PyErr
  | [], acc, cont => (acc, cont, none)
  | item :: rest, acc, cont =>
    match pyIn "continuationItemRenderer" item with
    | .error e => (acc, cont, some e)
    | .ok true => walkItems1 rest acc (some item)
    | .ok false =>
      let vid := pyOr
        (dict_tryget item ["richItemRenderer", "content", "videoRenderer", "videoId"] .null)
        (dict_tryget item ["richItemRenderer", "content", "reelItemRenderer", "videoId"] .null)
      walkItems1 rest (acc ++ [vid]) cont

/-- Continuation-page item walk (lines 333-338): like `walkItems1` but
with raw subscriptions, so a missing path raises mid-walk (keeping the
appends already made). -/
def walkItems2 : List Json → List Json → Option Json →
    List Json × Option Json × Option PyErr
  | [], acc, cont => (acc, cont, none)
  | item :: rest, acc, cont =>
    match pyIn "continuationItemRenderer" item with
    | .error e => (acc, cont, some e)
    | .ok true => walkItems2 rest acc (some item)
    | .ok false =>
      match vid2Of item with
      | .error e => (acc, cont, some e)
      | .ok v => walkItems2 rest (acc ++ [v]) cont

/-- The `while continuation is not None` loop (lines 298-338): extract
the token, check the deadline, issue the POST, locate and walk the
continuation items, and repeat.  The first component is the raised
exception, if any (`none` means normal completion). -/
def runCont (clock : Nat → Int) (endt : Option Int) (url : String) :
    List PostEv → Json → List Json → Nat → List TCall → Option PyErr × ChanSt
  | posts, cont, vids, ci, tr =>
    match tokenOf cont with
    | .error e => (some e, ⟨vids, ci, posts, tr⟩)
    | .ok _ =>
      let tOut : Bool × Nat :=
        match endt with
        | some e => (decide (e - clock ci ≤ 0), ci + 1)
        | none => (false, ci)
      if tOut.1 then
        (some (.timeoutError ("Timed out while loading " ++ url)),
          ⟨vids, tOut.2, posts, tr⟩)
      else
        match posts with
        | [] => (some .connectionError, ⟨vids, tOut.2, [], tr ++ [.post]⟩)
        | p :: rest =>
          let tr2 := tr ++ [.post]
          match p with
          | .connError => (some .connectionError, ⟨vids, tOut.2, rest, tr2⟩)
          | .resp none => (some .valueError, ⟨vids, tOut.2, rest, tr2⟩)
          | .resp (some body) =>
            match contItemsOf body with
            | .error e => (some e, ⟨vids, tOut.2, rest, tr2⟩)
            | .ok itemsJ =>
              match pyIter itemsJ with
              | .error e => (some e, ⟨vids, tOut.2, rest, tr2⟩)
              | .ok items =>
                match walkItems2 items vids none with
                | (vids2, _, some e) => (some e, ⟨vids2, tOut.2, rest, tr2⟩)
                | (vids2, none, none) => (none, ⟨vids2, tOut.2, rest, tr2⟩)
                | (vids2, some c2, none) =>
                  runCont clock endt url rest c2 vids2 tOut.2 tr2

/-- One tab's processing (lines 283-341): the grid item path, the
first-page walk, and the continuation loop, wrapped in
`try ... except KeyError: pass` — a `KeyError` is swallowed, keeping
the partial state; any other exception propagates. -/
def runTab (clock : Nat → Int) (endt : Option Int) (url : String)
    (tab : Json) (st : ChanSt) : Option PyErr × ChanSt :=
  let inner : Option PyErr × ChanSt :=
    match gridItemsOf tab with
    | .error e => (some e, st)
    | .ok itemsJ =>
      match pyIter itemsJ with
      | .error e => (some e, st)
      | .ok items =>
        match walkItems1 items st.videos none with
        | (vids, _, some e) => (some e, { st with videos := vids })
        | (vids, none, none) => (none, { st with videos := vids })
        | (vids, some c, none) => runCont clock endt url st.posts c vids st.clk st.trace
  match inner with
  | (some (.keyError _), st2) => (none, st2)
  | out => out

/-- Embeds `for tab in tabs` (line 283). -/
def runTabs (clock : Nat → Int) (endt : Option Int) (url : String) :
    List Json → ChanSt → Option PyErr × ChanSt
  | [], st => (none, st)
  | t :: ts, st =>
    match runTab clock endt url t st with
    | (some e, st2) => (some e, st2)
    | (none, st2) => runTabs clock endt url ts st2

/-- The per-URL retry loop (lines 260-273): only the status code is
examined; a 200 breaks out with the response, exhaustion raises
`RetryError` (the `for ... else` clause), a connection error
propagates, an elapsed deadline raises `TimeoutError`. -/
def chanFetch (tget : Nat → Nat → GetEv) (clock : Nat → Int) (u : Nat)
    (url : String) (endt : Option Int) :
    Nat → Nat → Nat → List TCall → Except PyErr (Option Json) × Nat × List TCall
  | 0, _, ci, tr => (.error (.retryError ("Reached maximum retries for " ++ url)), ci, tr)
  | fuel + 1, ai, ci, tr =>
    let tOut : Bool × Nat :=
      match endt with
      | some e => (decide (e - clock ci ≤ 0), ci + 1)
      | none => (false, ci)
    if tOut.1 then
      (.error (.timeoutError ("Timed out while loading " ++ url)), tOut.2, tr)
    else
      match tget u ai with
      | .connError => (.error .connectionError, tOut.2, tr ++ [.get u ai])
      | .resp s blob =>
        if s == 200 then (.ok blob, tOut.2, tr ++ [.get u ai])
        else chanFetch tget clock u url endt fuel (ai + 1) tOut.2 (tr ++ [.get u ai])

/-- One sub-listing URL (lines 254-341): per-URL deadline setup (with
the same `if timeout:` truthiness as `get_data`), the retry loop, then
blob extraction — a malformed page logs a warning and `continue`s to
the NEXT URL (it is not retried) — then the tab walk. -/
def runUrl (tget : Nat → Nat → GetEv) (clock : Nat → Int) (retries : Nat)
    (timeout : Option Int) (u : Nat) (url : String) (st : ChanSt) :
    Option PyErr × ChanSt :=
  let setup : Option Int × Nat :=
    match timeout with
    | some t => if t == 0 then (none, st.clk) else (some (clock st.clk + t), st.clk + 1)
    | none => (none, st.clk)
  match chanFetch tget clock u url setup.1 (retries + 1) 0 setup.2 st.trace with
  | (.error e, ci1, tr1) => (some e, { st with clk := ci1, trace := tr1 })
  | (.ok none, ci1, tr1) => (none, { st with clk := ci1, trace := tr1 })
  | (.ok (some d), ci1, tr1) =>
    let st1 := { st with clk := ci1, trace := tr1 }
    match tabsOf d with
    | .error e => (some e, st1)
    | .ok tabsJ =>
      match pyIter tabsJ with
      | .error e => (some e, st1)
      | .ok tabs => runTabs clock setup.1 url tabs st1

/-- The loop over the three sub-listing URLs (line 254). -/
def runUrls (tget : Nat → Nat → GetEv) (clock : Nat → Int) (retries : Nat)
    (timeout : Option Int) : List (Nat × String) → ChanSt → Option PyErr × ChanSt
  | [], st => (none, st)
  | (u, url) :: rest, st =>
    match runUrl tget clock retries timeout u url st with
    | (some e, st2) => (some e, st2)
    | (none, st2) => runUrls tget clock retries timeout rest st2

/-- Embeds `get_channel_videos(in_str, session, retries, timeout)`
(lines 236-343). -/
def get_channel_videos (tget : Nat → Nat → GetEv) (posts : List PostEv)
    (clock : Nat → Int) (in_str : String) (retries : Nat)
    (timeout : Option Int) : Except PyErr (List Json) × List TCall :=
  let base :=
    if isHandleLike in_str then "https://www.youtube.com/" ++ in_str
    else if isIdLike in_str then "https://www.youtube.com/channel/" ++ in_str
    else in_str
  let urls := [(0, base ++ "/videos"), (1, base ++ "/streams"), (2, base ++ "/shorts")]
  match runUrls tget clock retries timeout urls ⟨[], 0, posts, []⟩ with
  | (some e, st) => (.error e, st.trace)
  | (none, st) => (.ok st.videos, st.trace)

/-! ## Observation helpers -/

/-- A failed `get_data` attempt in the sense of the retry loop: a
non-200 status or a missing blob (a connection error is NOT a failed
attempt there — it propagates). -/
def dataFails : DataEv → Bool
  | .connError => false
  | .resp s t => !(s == 200) || t.ipr.isNone || t.idata.isNone

/-- A failed `get_thumbnail` attempt: a connection error or a non-200
status (both are handled identically there). -/
def thumbFails : ThumbEv → Bool
  | .connError => true
  | .resp s _ => !(s == 200)

/-- Observe one field of an extraction outcome. -/
def fieldOf (e : Except PyErr PyDict) (k : String) : Except PyErr (Option Json) :=
  e.map (fun r => dget r k)

/-- The count value the specification expects for a captured
like/dislike label: absent label ⇒ `None`, `"No"` ⇒ 0, otherwise the
integer left after stripping thousands separators. -/
def countJson : Option String → Json
  | none => .null
  | some c =>
    if c == "No" then .num 0
    else .num (digitsToNat (stripSeps c))

/-- A capture that is a well-formed count in the claim's sense:
absent, the literal `"No"`, or text that still holds at least one
digit (and only digits) after separators are stripped. -/
def capOk : Option String → Bool
  | none => true
  | some c =>
    c == "No" || (!(stripSeps c).isEmpty && (stripSeps c).all Char.isDigit)

/-! ## Concrete fixtures for witnesses and counterexamples -/

/-- A transport whose every attempt returns a non-200 status. -/
def fxDataFail : Nat → DataEv := fun _ => .resp 404 ⟨none, none⟩

/-- A transport failing the first two attempts (non-200) and
succeeding on the third (the spec's own retry example). -/
def fxDataThird : Nat → DataEv := fun i =>
  if i < 2 then .resp 500 ⟨none, none⟩
  else .resp 200 ⟨some (.obj []), some (.obj [])⟩

/-- A transport succeeding immediately. -/
def fxDataGood : Nat → DataEv := fun _ => .resp 200 ⟨some (.obj []), some (.obj [])⟩

/-- A transport that returns 200 with a malformed page on the first
attempt and a well-formed page afterwards. -/
def fxDataMalformedFirst : Nat → DataEv := fun i =>
  if i == 0 then .resp 200 ⟨none, none⟩
  else .resp 200 ⟨some (.obj [("k", .num 1)]), some (.obj [])⟩

/-- A transport raising a connection error on every attempt. -/
def fxDataConn : Nat → DataEv := fun _ => .connError

/-- A thumbnail transport with a connection error first, then a 200. -/
def fxThumb : Nat → ThumbEv := fun i =>
  if i == 0 then .connError else .resp 200 "IMGBYTES"

/-- A constant clock. -/
def fxClock0 : Nat → Int := fun _ => 0

/-- A clock that jumps far ahead after the deadline is computed. -/
def fxClockJump : Nat → Int := fun i => if i == 0 then 0 else 100

/-- A playability status object: `LOGIN_REQUIRED` with a `reason`. -/
def fxAgePS : List (String × Json) :=
  [("status", .str "LOGIN_REQUIRED"), ("reason", .str "Sign in to confirm your age")]

/-- A data bundle with the age-restricted playability status. -/
def fxAgeBundle : Json :=
  .obj [("url", .str "https://www.youtube.com/watch?v=agevid"),
    ("ytInitialPlayerResponse", .obj [("playabilityStatus", .obj fxAgePS)])]

/-- A data bundle with status `ERROR` and a short-URL `url`. -/
def fxErrBundle : Json :=
  .obj [("url", .str "https://youtu.be/zz-9"),
    ("ytInitialPlayerResponse", .obj [("playabilityStatus",
      .obj [("status", .str "ERROR")])]),
    ("ytInitialData", .obj [])]

/-- A complete `videoDetails` subtree. -/
def fxDetails : Json := .obj [
  ("videoId", .str "vid01"), ("author", .str "Auth"), ("channelId", .str "ch01"),
  ("title", .str "Title"), ("shortDescription", .str "desc"),
  ("lengthSeconds", .str "120"), ("isLiveContent", .bool false),
  ("viewCount", .str "999")]

/-- An `OK` bundle whose watch-next content subtree is the parameter
`cv`; `extract_info` serializes exactly that subtree when looking for
the like/dislike labels. -/
def likesBundle (cv : Json) : Json :=
  .obj [("url", .str "https://www.youtube.com/watch?v=vid01"),
    ("ytInitialPlayerResponse", .obj [
      ("playabilityStatus", .obj [("status", .str "OK")]),
      ("videoDetails", fxDetails)]),
    ("ytInitialData", .obj [
      ("contents", .obj [("twoColumnWatchNextResults", .obj [
        ("results", .obj [("results", .obj [("contents", cv)])])])])])]

/-- A content subtree carrying a thousands-separated likes label. -/
def fxLikesContent : Json := .arr [.obj [("label", .str "1,234 likes")]]

/-- The record `extract_info` has built for `likesBundle cv` at the
point where the like/dislike labels are about to be parsed (both
fields preset to `None`).  Used to state that reduction. -/
def likesBase (now : String) : PyDict :=
  [("status", .str "OK"), ("timestamp", .str now), ("id", .str "vid01"),
   ("author", .str "Auth"), ("channel_id", .str "ch01"), ("title", .str "Title"),
   ("description", .str "desc"), ("length", .str "120"),
   ("live_content", .bool false), ("chat_available", .bool false),
   ("average_rating", .null), ("views", .str "999"), ("family_safe", .null),
   ("keywords", .arr []), ("chapters", .arr []), ("likes", .null), ("dislikes", .null)]

/-- The tail of `extract_info` after the like/dislike section, at
`likesBundle cv` (the four trailing optional fields all resolve to
`None` there). -/
def likesFinal (ret : PyDict) : Except PyErr PyDict :=
  pure (dset (dset (dset (dset ret "unlisted" .null) "category" .null)
    "start_time" .null) "end_time" .null)

/-- The dislikes-label section of `extract_info` at `likesBundle cv`. -/
def likesDis (cv : Json) (ret : PyDict) : Except PyErr PyDict :=
  match searchLabel (pyStr cv) "dislikes" with
  | some c => strToIntStripped c >>= fun v =>
      pure (dset ret "dislikes" v) >>= fun y => likesFinal y
  | none => pure ret >>= fun y => likesFinal y

/-- An `OK` bundle lacking the `videoDetails` subtree. -/
def fxNoDetailsBundle : Json :=
  .obj [("url", .str "https://www.youtube.com/watch?v=vid01"),
    ("ytInitialPlayerResponse", .obj [
      ("playabilityStatus", .obj [("status", .str "OK")])]),
    ("ytInitialData", .obj [])]

/-- An `OK` bundle whose chapter path is present and holds `null`. -/
def fxChNullBundle : Json :=
  .obj [("url", .str "https://www.youtube.com/watch?v=vid01"),
    ("ytInitialPlayerResponse", .obj [
      ("playabilityStatus", .obj [("status", .str "OK")]),
      ("videoDetails", fxDetails)]),
    ("ytInitialData", .obj [("playerOverlays", .obj [("playerOverlayRenderer",
      .obj [("decoratedPlayerBarRenderer", .obj [("decoratedPlayerBarRenderer",
        .obj [("playerBar", .obj [("chapteredPlayerBarRenderer",
          .obj [("chapters", .null)])])])])])])])]

/-- An `OK` bundle with no chapter path at all. -/
def fxChMissingBundle : Json :=
  .obj [("url", .str "https://www.youtube.com/watch?v=vid01"),
    ("ytInitialPlayerResponse", .obj [
      ("playabilityStatus", .obj [("status", .str "OK")]),
      ("videoDetails", fxDetails)]),
    ("ytInitialData", .obj [])]

/-- One chapter entry with the given title and start-millis values. -/
def chapterEntry (t ms : Json) : Json :=
  .obj [("chapterRenderer", .obj [("title", .obj [("simpleText", t)]),
    ("timeRangeStartMillis", ms)])]

/-- An `OK` bundle whose chapter path holds a one-entry list. -/
def fxChListBundle (t ms : Json) : Json :=
  .obj [("url", .str "https://www.youtube.com/watch?v=vid01"),
    ("ytInitialPlayerResponse", .obj [
      ("playabilityStatus", .obj [("status", .str "OK")]),
      ("videoDetails", fxDetails)]),
    ("ytInitialData", .obj [("playerOverlays", .obj [("playerOverlayRenderer",
      .obj [("decoratedPlayerBarRenderer", .obj [("decoratedPlayerBarRenderer",
        .obj [("playerBar", .obj [("chapteredPlayerBarRenderer",
          .obj [("chapters", .arr [chapterEntry t ms])])])])])])])])]

/-- A channel page whose single tab grid holds the given items. -/
def fxGridPage (items : List Json) : Json :=
  let grid := Json.obj [("contents", Json.arr items)]
  let tab := Json.obj [("tabRenderer", Json.obj [("content",
    Json.obj [("richGridRenderer", grid)])])]
  Json.obj [("contents", Json.obj [("twoColumnBrowseResultsRenderer",
    Json.obj [("tabs", Json.arr [tab])])])]

/-- A grid item carrying a `videoRenderer` video id. -/
def fxVidItem (v : String) : Json :=
  .obj [("richItemRenderer", .obj [("content", .obj [("videoRenderer",
    .obj [("videoId", .str v)])])])]

/-- A grid item that is not a continuation marker and has neither the
`videoRenderer` nor the `reelItemRenderer` id path. -/
def fxBadItem : Json :=
  .obj [("richItemRenderer", .obj [("content", .obj [("otherRenderer",
    .obj [("videoId", .str "X")])])])]

/-- A channel GET transport: `/videos` serves a grid with only the
pathless item; the other sub-listings serve malformed pages. -/
def fxTgetBad : Nat → Nat → GetEv := fun u _ =>
  if u == 0 then .resp 200 (some (fxGridPage [fxBadItem])) else .resp 200 none

/-- A channel GET transport: the first `/videos` attempt serves a 200
page with no extractable data; every later attempt would serve a grid
holding a real video id; the other sub-listings serve malformed
pages. -/
def fxTgetMalformedFirst : Nat → Nat → GetEv := fun u a =>
  if u == 0 && a == 0 then .resp 200 none
  else if u == 0 then .resp 200 (some (fxGridPage [fxVidItem "GOOD1"]))
  else .resp 200 none

/-- A channel GET transport raising a connection error on every
attempt. -/
def fxTgetConn : Nat → Nat → GetEv := fun _ _ => .connError

/-- A channel GET transport serving a 200 page with no extractable
data on every attempt. -/
def fxTget200None : Nat → Nat → GetEv := fun _ _ => .resp 200 none

/-! ## Shared lemmas about the retry loops -/

theorem get_data_loop_allFail (transport : Nat → DataEv) (clock : Nat → Int)
    (url : String) :
    ∀ (n ai ci : Nat), (∀ i, i < n → dataFails (transport (ai + i)) = true) →
    get_data_loop transport clock url none n ai ci =
      ⟨.error (.retryError ("Reached maximum retries for " ++ url)), n⟩ := by
  intro n
  induction n with
  | zero => intro ai ci _; rfl
  | succ m ih =>
    intro ai ci h
    have h0 : dataFails (transport ai) = true := by
      simpa using h 0 (Nat.succ_pos m)
    have hrec : get_data_loop transport clock url none m (ai + 1) ci =
        ⟨.error (.retryError ("Reached maximum retries for " ++ url)), m⟩ := by
      refine ih (ai + 1) ci (fun i hi => ?_)
      have := h (i + 1) (Nat.succ_lt_succ hi)
      simpa [Nat.add_comm, Nat.add_assoc, Nat.add_left_comm] using this
    simp only [get_data_loop]
    cases ev : transport ai with
    | connError => rw [ev] at h0; simp [dataFails] at h0
    | resp s t =>
      rw [ev] at h0
      by_cases hs : s == 200
      · obtain ⟨o1, o2⟩ := t
        simp only [dataFails, hs, Bool.not_true, Bool.false_or, Bool.or_eq_true] at h0
        cases o1 with
        | some pr =>
          cases o2 with
          | some idt => simp [Option.isNone] at h0
          | none => simp [hs, hrec, extract_initial_player_response, extract_initial_data]
        | none => cases o2 <;>
            simp [hs, hrec, extract_initial_player_response, extract_initial_data]
      · simp [hs, hrec]

theorem get_data_loop_succAt (transport : Nat → DataEv) (clock : Nat → Int)
    (url : String) :
    ∀ (k n ai ci : Nat) (pr idt : Json), k < n →
      (∀ i, i < k → dataFails (transport (ai + i)) = true) →
      transport (ai + k) = .resp 200 ⟨some pr, some idt⟩ →
      get_data_loop transport clock url none n ai ci =
        ⟨.ok (.obj [("url", .str url), ("ytInitialPlayerResponse", pr),
          ("ytInitialData", idt)]), k + 1⟩ := by
  intro k
  induction k with
  | zero =>
    intro n ai ci pr idt hn _ hk
    obtain ⟨m, rfl⟩ : ∃ m, n = m + 1 := ⟨n - 1, by omega⟩
    rw [Nat.add_zero] at hk
    simp [get_data_loop, hk, extract_initial_player_response, extract_initial_data]
  | succ j ihj =>
    intro n ai ci pr idt hn h hk
    obtain ⟨m, rfl⟩ : ∃ m, n = m + 1 := ⟨n - 1, by omega⟩
    have h0 : dataFails (transport ai) = true := by
      simpa using h 0 (Nat.succ_pos j)
    have hrec := ihj m (ai + 1) ci pr idt (by omega)
      (fun i hi => by
        have := h (i + 1) (Nat.succ_lt_succ hi)
        simpa [Nat.add_comm, Nat.add_assoc, Nat.add_left_comm] using this)
      (by
        have : ai + 1 + j = ai + (j + 1) := by omega
        rw [this]; exact hk)
    simp only [get_data_loop]
    cases ev : transport ai with
    | connError => rw [ev] at h0; simp [dataFails] at h0
    | resp s t =>
      rw [ev] at h0
      by_cases hs : s == 200
      · obtain ⟨o1, o2⟩ := t
        simp only [dataFails, hs, Bool.not_true, Bool.false_or, Bool.or_eq_true] at h0
        cases o1 with
        | some pr2 =>
          cases o2 with
          | some idt2 => simp [Option.isNone] at h0
          | none => simp [hs, hrec, extract_initial_player_response, extract_initial_data]
        | none => cases o2 <;>
            simp [hs, hrec, extract_initial_player_response, extract_initial_data]
      · simp [hs, hrec]

theorem get_thumbnail_loop_succAt (transport : Nat → ThumbEv) (clock : Nat → Int)
    (url : String) :
    ∀ (k n ai ci : Nat) (content : String), k < n →
      (∀ i, i < k → thumbFails (transport (ai + i)) = true) →
      transport (ai + k) = .resp 200 content →
      get_thumbnail_loop transport clock url none n ai ci = ⟨.ok content, k + 1⟩ := by
  intro k
  induction k with
  | zero =>
    intro n ai ci content hn _ hk
    obtain ⟨m, rfl⟩ : ∃ m, n = m + 1 := ⟨n - 1, by omega⟩
    rw [Nat.add_zero] at hk
    simp [get_thumbnail_loop, hk]
  | succ j ihj =>
    intro n ai ci content hn h hk
    obtain ⟨m, rfl⟩ : ∃ m, n = m + 1 := ⟨n - 1, by omega⟩
    have h0 : thumbFails (transport ai) = true := by
      simpa using h 0 (Nat.succ_pos j)
    have hrec := ihj m (ai + 1) ci content (by omega)
      (fun i hi => by
        have := h (i + 1) (Nat.succ_lt_succ hi)
        simpa [Nat.add_comm, Nat.add_assoc, Nat.add_left_comm] using this)
      (by
        have : ai + 1 + j = ai + (j + 1) := by omega
        rw [this]; exact hk)
    simp only [get_thumbnail_loop]
    cases ev : transport ai with
    | connError => simp [hrec]
    | resp s c =>
      rw [ev] at h0
      have hs : (s == 200) = false := by
        simpa [thumbFails] using h0
      simp [hs, hrec]

/-! ## Claims -/

/-- C1: for the bounded-retry fetch `get_data` with retry budget
`retries` (and no deadline), if every attempt fails (non-200 status or
missing JSON blob) the call raises `RetryError` after exactly
`retries + 1` transport attempts; if some attempt `k` (0-based,
`k < retries + 1`) is the first to succeed (status 200 and both blobs
parse), the call returns the data bundle built from that attempt's
response. -/
theorem C1_get_data_retry (transport : Nat → DataEv) (clock : Nat → Int)
    (in_str : String) (retries : Nat) :
    ((∀ i, i < retries + 1 → dataFails (transport i) = true) →
      get_data transport clock in_str retries none =
        ⟨.error (.retryError
          ("Reached maximum retries for " ++ resolve_watch_url in_str)),
         retries + 1⟩) ∧
    (∀ k pr idt, k < retries + 1 →
      (∀ i, i < k → dataFails (transport i) = true) →
      transport k = .resp 200 ⟨some pr, some idt⟩ →
      get_data transport clock in_str retries none =
        ⟨.ok (.obj [("url", .str (resolve_watch_url in_str)),
          ("ytInitialPlayerResponse", pr), ("ytInitialData", idt)]), k + 1⟩) := by
  constructor
  · intro h
    simpa [get_data] using
      get_data_loop_allFail transport clock (resolve_watch_url in_str)
        (retries + 1) 0 0 (fun i hi => by simpa using h i hi)
  · intro k pr idt hk h hsucc
    simpa [get_data] using
      get_data_loop_succAt transport clock (resolve_watch_url in_str)
        k (retries + 1) 0 0 pr idt hk (fun i hi => by simpa using h i hi)
        (by simpa using hsucc)

/-- Witness for C1: the spec's own retry example — a transport that
fails the first two attempts and succeeds on the third returns that
third response (3 calls) with `retries = 3`; an always-failing
transport with `retries = 1` raises `RetryError` after exactly 2
attempts. -/
theorem C1_witness :
    get_data fxDataThird fxClock0 "abc" 3 none =
      ⟨.ok (.obj [("url", .str "https://www.youtube.com/watch?v=abc"),
        ("ytInitialPlayerResponse", .obj []), ("ytInitialData", .obj [])]), 3⟩ ∧
    get_data fxDataFail fxClock0 "abc" 1 none =
      ⟨.error (.retryError
        ("Reached maximum retries for https://www.youtube.com/watch?v=abc")), 2⟩ := by
  constructor
  · exact (C1_get_data_retry fxDataThird fxClock0 "abc" 3).2 2 (.obj []) (.obj [])
      (by decide) (by decide) rfl
  · exact (C1_get_data_retry fxDataFail fxClock0 "abc" 1).1 (by decide)

theorem exBindOk {α β : Type} (a : α) (f : α → Except PyErr β) :
    (Except.ok a >>= f) = f a := rfl

theorem exPureOk {α : Type} (a : α) : (pure a : Except PyErr α) = Except.ok a := rfl

/-- C2 counterexample: with `timeout=0` the call does NOT raise
`Timeout` without issuing a transport call — `if timeout:` is falsy on
0, so no deadline is configured at all: here the call issues a
transport request and returns its response. -/
theorem C2_counterexample :
    get_data fxDataGood fxClock0 "abc" 3 (some 0) =
      ⟨.ok (.obj [("url", .str "https://www.youtube.com/watch?v=abc"),
        ("ytInitialPlayerResponse", .obj []), ("ytInitialData", .obj [])]), 1⟩ := rfl

/-- C2 (amended): `timeout=0` configures no deadline (Python
truthiness of `if timeout:`); for a truthy (nonzero) timeout, whenever
the deadline has already elapsed at the start of an attempt, both
`get_data` and `get_thumbnail` raise `TimeoutError` without issuing
any transport call for that attempt — stated generally for the two
retry loops, and at the top level for a deadline elapsed before the
first attempt. -/
theorem C2_timeout_amended :
    (∀ (transport : Nat → DataEv) (clock : Nat → Int) (url : String)
        (e : Int) (fuel ai ci : Nat), e - clock ci ≤ 0 →
      get_data_loop transport clock url (some e) (fuel + 1) ai ci =
        ⟨.error (.timeoutError ("Timed out while loading " ++ url)), 0⟩) ∧
    (∀ (transport : Nat → ThumbEv) (clock : Nat → Int) (url : String)
        (e : Int) (fuel ai ci : Nat), e - clock ci ≤ 0 →
      get_thumbnail_loop transport clock url (some e) (fuel + 1) ai ci =
        ⟨.error (.timeoutError ("Timed out while loading " ++ url)), 0⟩) ∧
    (∀ (transport : Nat → DataEv) (clock : Nat → Int) (in_str : String)
        (retries : Nat) (t : Int), t ≠ 0 → clock 0 + t - clock 1 ≤ 0 →
      get_data transport clock in_str retries (some t) =
        ⟨.error (.timeoutError
          ("Timed out while loading " ++ resolve_watch_url in_str)), 0⟩) ∧
    (∀ (transport : Nat → ThumbEv) (clock : Nat → Int) (in_str : String)
        (retries : Nat) (t : Int), isIdLike in_str = true → t ≠ 0 →
        clock 0 + t - clock 1 ≤ 0 →
      get_thumbnail transport clock in_str "maxres" retries (some t) =
        ⟨.error (.timeoutError ("Timed out while loading https://i.ytimg.com/vi/"
          ++ in_str ++ "/maxresdefault.jpg")), 0⟩) := by
  have hd : ∀ (transport : Nat → DataEv) (clock : Nat → Int) (url : String)
      (e : Int) (fuel ai ci : Nat), e - clock ci ≤ 0 →
      get_data_loop transport clock url (some e) (fuel + 1) ai ci =
        ⟨.error (.timeoutError ("Timed out while loading " ++ url)), 0⟩ := by
    intro transport clock url e fuel ai ci h
    simp only [get_data_loop]
    rw [if_pos h]
  have hth : ∀ (transport : Nat → ThumbEv) (clock : Nat → Int) (url : String)
      (e : Int) (fuel ai ci : Nat), e - clock ci ≤ 0 →
      get_thumbnail_loop transport clock url (some e) (fuel + 1) ai ci =
        ⟨.error (.timeoutError ("Timed out while loading " ++ url)), 0⟩ := by
    intro transport clock url e fuel ai ci h
    simp only [get_thumbnail_loop]
    rw [if_pos h]
  refine ⟨hd, hth, ?_, ?_⟩
  · intro transport clock in_str retries t hne h
    have ht0 : (t == 0) = false := by simpa using hne
    simp only [get_data, ht0, Bool.false_eq_true, if_false]
    exact hd transport clock (resolve_watch_url in_str) (clock 0 + t) retries 0 1 h
  · intro transport clock in_str retries t hid hne h
    have ht0 : (t == 0) = false := by simpa using hne
    simp only [get_thumbnail, hid, if_true, ht0, Bool.false_eq_true, if_false]
    exact hth transport clock
      ("https://i.ytimg.com/vi/" ++ in_str ++ "/maxresdefault.jpg")
      (clock 0 + t) retries 0 1 h

/-- Witness for C2's amended theorem: a clock that jumps past the
deadline between setup and the first attempt makes both `get_data` and
`get_thumbnail` raise `TimeoutError` with zero transport calls. -/
theorem C2_timeout_witness :
    get_data fxDataGood fxClockJump "abc" 3 (some 5) =
      ⟨.error (.timeoutError
        ("Timed out while loading https://www.youtube.com/watch?v=abc")), 0⟩ ∧
    get_thumbnail fxThumb fxClockJump "abc" "maxres" 3 (some 5) =
      ⟨.error (.timeoutError
        ("Timed out while loading https://i.ytimg.com/vi/abc/maxresdefault.jpg")), 0⟩ := by
  constructor
  · exact C2_timeout_amended.2.2.1 fxDataGood fxClockJump "abc" 3 5
      (by decide) (by decide)
  · exact C2_timeout_amended.2.2.2 fxThumb fxClockJump "abc" 3 5
      (by decide) (by decide) (by decide)

/-- C3: `get_status` maps a `LOGIN_REQUIRED` playability status with a
`reason` key to `AGE_RESTRICTED`, otherwise with a `messages` key to
`PRIVATE`; any other status string is returned unchanged. -/
theorem C3_get_status_classification (data ipr : Json)
    (ps : List (String × Json)) (s : String)
    (h1 : getKey data "ytInitialPlayerResponse" = .ok ipr)
    (h2 : getKey ipr "playabilityStatus" = .ok (.obj ps))
    (h3 : getKey (.obj ps) "status" = .ok (.str s)) :
    (s = "LOGIN_REQUIRED" → ps.any (fun p => p.1 == "reason") = true →
      get_status data = .ok (.str "AGE_RESTRICTED")) ∧
    (s = "LOGIN_REQUIRED" → ps.any (fun p => p.1 == "reason") = false →
      ps.any (fun p => p.1 == "messages") = true →
      get_status data = .ok (.str "PRIVATE")) ∧
    (s ≠ "LOGIN_REQUIRED" → get_status data = .ok (.str s)) := by
  refine ⟨?_, ?_, ?_⟩
  · intro hs hr
    subst hs
    simp [get_status, h1, h2, h3, exBindOk, exPureOk, pyEqStr, pyIn, hr]
  · intro hs hr hm
    subst hs
    simp [get_status, h1, h2, h3, exBindOk, exPureOk, pyEqStr, pyIn, hr, hm]
  · intro hs
    have hb : (s == "LOGIN_REQUIRED") = false := by simpa using hs
    simp [get_status, h1, h2, h3, exBindOk, exPureOk, pyEqStr, hb]

/-- Witness for C3: a `LOGIN_REQUIRED` status carrying a `reason` is
classified as `AGE_RESTRICTED`. -/
theorem C3_witness :
    get_status fxAgeBundle = .ok (.str "AGE_RESTRICTED") := by
  exact (C3_get_status_classification fxAgeBundle
    (.obj [("playabilityStatus", .obj fxAgePS)]) fxAgePS "LOGIN_REQUIRED"
    rfl rfl rfl).1 rfl (by decide)

/-- C4: for a bundle classified `ERROR` or `PRIVATE`, `extract_info`
returns a record with exactly the keys `status`, `timestamp`, `id`
(in that order, nothing else populated), and `id` is the identifier
parsed from the bundle's `url` by the watch-URL/short-URL pattern. -/
theorem C4_minimal_record (data : Json) (now : String) (sv : Json) (u : String)
    (h1 : get_status data = .ok sv)
    (h2 : (pyEqStr sv "ERROR" || pyEqStr sv "PRIVATE") = true)
    (h3 : getKey data "url" = .ok (.str u)) :
    extract_info now data =
      .ok [("status", sv), ("timestamp", .str now),
        ("id", optJson (get_videoid u))] := by
  simp only [extract_info]
  rw [h1, exBindOk, h2]
  simp only [if_true]
  rw [h3]
  rfl

/-- Witness for C4: an `ERROR` bundle with a short-form URL yields the
three-key record with the id parsed out of `https://youtu.be/zz-9`. -/
theorem C4_witness :
    extract_info "T0" fxErrBundle =
      .ok [("status", .str "ERROR"), ("timestamp", .str "T0"),
        ("id", .str "zz-9")] := by
  exact C4_minimal_record fxErrBundle "T0" (.str "ERROR")
    "https://youtu.be/zz-9" rfl rfl rfl

/-- C5 counterexample: in `get_data` a transport-level connection
failure is NOT treated like a non-200 status — it propagates to the
caller after a single transport call instead of proceeding to the next
retry (with `retries = 3` a retried failure would have produced
`RetryError` after 4 calls). -/
theorem C5_counterexample :
    get_data fxDataConn fxClock0 "abc" 3 none =
      ⟨.error .connectionError, 1⟩ := rfl

/-- C5 (amended): only `get_thumbnail` catches
`requests.ConnectionError` and treats it exactly like a non-200 status
(a failed attempt, logged, retried); in `get_data` and
`get_channel_videos` a connection error propagates to the caller on
the attempt that raised it. -/
theorem C5_conn_amended :
    (∀ (transport : Nat → ThumbEv) (clock : Nat → Int) (url : String)
        (k n ai ci : Nat) (content : String), k < n →
      (∀ i, i < k → thumbFails (transport (ai + i)) = true) →
      transport (ai + k) = .resp 200 content →
      get_thumbnail_loop transport clock url none n ai ci = ⟨.ok content, k + 1⟩) ∧
    (∀ (transport : Nat → DataEv) (clock : Nat → Int) (in_str : String)
        (retries : Nat), transport 0 = .connError →
      get_data transport clock in_str retries none =
        ⟨.error .connectionError, 1⟩) ∧
    (∀ (tget : Nat → Nat → GetEv) (posts : List PostEv) (clock : Nat → Int)
        (in_str : String) (retries : Nat), tget 0 0 = .connError →
      get_channel_videos tget posts clock in_str retries none =
        (.error .connectionError, [.get 0 0])) := by
  refine ⟨?_, ?_, ?_⟩
  · intro transport clock url k n ai ci content hk h hsucc
    exact get_thumbnail_loop_succAt transport clock url k n ai ci content hk h hsucc
  · intro transport clock in_str retries h
    simp only [get_data, get_data_loop]
    rw [h]
  · intro tget posts clock in_str retries h
    simp only [get_channel_videos, runUrls, runUrl, chanFetch]
    rw [h]
    rfl

/-- Witness for C5's amended theorem: a thumbnail transport with a
connection error on the first attempt succeeds on the second (the
error was retried); `get_data` and `get_channel_videos` propagate the
connection error after one transport call. -/
theorem C5_witness :
    get_thumbnail_loop fxThumb fxClock0 "u" none 4 0 0 = ⟨.ok "IMGBYTES", 2⟩ ∧
    get_data fxDataConn fxClock0 "abc" 2 none = ⟨.error .connectionError, 1⟩ ∧
    get_channel_videos fxTgetConn [] fxClock0 "chanid" 2 none =
      (.error .connectionError, [.get 0 0]) := by
  refine ⟨?_, ?_, ?_⟩
  · exact C5_conn_amended.1 fxThumb fxClock0 "u" 1 4 0 0 "IMGBYTES"
      (by decide) (by decide) rfl
  · exact C5_conn_amended.2.1 fxDataConn fxClock0 "abc" 2 rfl
  · exact C5_conn_amended.2.2 fxTgetConn [] fxClock0 "chanid" 2 rfl

/-- C6 counterexample: in `get_channel_videos` a 200 page whose
embedded data blob cannot be extracted is NOT retried within the retry
budget — the sub-listing is skipped.  Here the first `/videos` attempt
is malformed while every later attempt would carry a real video id,
yet with `retries = 3` the call issues exactly one GET per sub-listing
and returns the empty listing. -/
theorem C6_counterexample :
    get_channel_videos fxTgetMalformedFirst [] fxClock0 "chanid" 3 none =
      (.ok [], [.get 0 0, .get 1 0, .get 2 0]) := rfl

/-- C6 (amended): in `get_data` a page whose blobs are missing or
unparseable is retried within the same retry budget as a failed HTTP
attempt; in `get_channel_videos` the retry loop only checks the status
code — a 200 page with no extractable data makes the sub-listing be
skipped (one GET, no retry), processing continuing with the next
sub-listing URL. -/
theorem C6_malformed_amended :
    (∀ (transport : Nat → DataEv) (clock : Nat → Int) (in_str : String)
        (retries : Nat) (t0 : PageText) (pr idt : Json), 0 < retries →
      transport 0 = .resp 200 t0 → (t0.ipr = none ∨ t0.idata = none) →
      transport 1 = .resp 200 ⟨some pr, some idt⟩ →
      get_data transport clock in_str retries none =
        ⟨.ok (.obj [("url", .str (resolve_watch_url in_str)),
          ("ytInitialPlayerResponse", pr), ("ytInitialData", idt)]), 2⟩) ∧
    (∀ (tget : Nat → Nat → GetEv) (posts : List PostEv) (clock : Nat → Int)
        (in_str : String) (retries : Nat),
      (∀ u, tget u 0 = .resp 200 none) →
      get_channel_videos tget posts clock in_str retries none =
        (.ok [], [.get 0 0, .get 1 0, .get 2 0])) := by
  constructor
  · intro transport clock in_str retries t0 pr idt hr h0 hmal h1
    have hfail : ∀ i, i < 1 → dataFails (transport (0 + i)) = true := by
      intro i hi
      have : i = 0 := by omega
      subst this
      rw [Nat.add_zero, h0]
      obtain ⟨o1, o2⟩ := t0
      rcases hmal with hm | hm <;> simp_all [dataFails]
    have := get_data_loop_succAt transport clock (resolve_watch_url in_str)
      1 (retries + 1) 0 0 pr idt (by omega) hfail (by simpa using h1)
    simpa [get_data] using this
  · intro tget posts clock in_str retries h
    simp only [get_channel_videos, runUrls, runUrl, chanFetch]
    rw [h 0, h 1, h 2]
    rfl

/-- Witness for C6's amended theorem: `get_data` returns the second
attempt's bundle after a malformed first page (2 calls); a channel
transport whose pages never parse yields the empty listing with one
GET per sub-listing. -/
theorem C6_witness :
    get_data fxDataMalformedFirst fxClock0 "abc" 3 none =
      ⟨.ok (.obj [("url", .str "https://www.youtube.com/watch?v=abc"),
        ("ytInitialPlayerResponse", .obj [("k", .num 1)]),
        ("ytInitialData", .obj [])]), 2⟩ ∧
    get_channel_videos fxTget200None [] fxClock0 "chanid" 3 none =
      (.ok [], [.get 0 0, .get 1 0, .get 2 0]) := by
  constructor
  · exact C6_malformed_amended.1 fxDataMalformedFirst fxClock0 "abc" 3
      ⟨none, none⟩ (.obj [("k", .num 1)]) (.obj []) (by decide) rfl
      (Or.inl rfl) rfl
  · exact C6_malformed_amended.2 fxTget200None [] fxClock0 "chanid" 3
      (fun u => rfl)

theorem strToIntStripped_of_capOk (c : String) (h : capOk (some c) = true) :
    strToIntStripped c = .ok (countJson (some c)) := by
  by_cases hno : (c == "No") = true
  · simp only [strToIntStripped, countJson, hno, if_true]
  · have hno2 : (c == "No") = false := by
      revert hno; cases c == "No" <;> simp
    have h2 := h
    simp only [capOk, hno2, Bool.false_or, Bool.and_eq_true] at h2
    obtain ⟨hne, hdig⟩ := h2
    have hne2 : (stripSeps c).isEmpty = false := by
      revert hne; cases (stripSeps c).isEmpty <;> simp
    simp only [strToIntStripped, countJson, hno2, hne2, hdig,
      Bool.false_eq_true, if_false, if_true]

theorem exBindPure {α β : Type} (a : α) (f : α → Except PyErr β) :
    ((pure a : Except PyErr α) >>= f) = f a := rfl

set_option maxHeartbeats 1000000 in
theorem extract_info_likesBundle (now : String) (cv : Json) :
    extract_info now (likesBundle cv) =
      (match searchLabel (pyStr cv) "likes" with
       | some c => strToIntStripped c >>= fun v =>
           pure (dset (likesBase now) "likes" v) >>= fun y => likesDis cv y
       | none => pure (likesBase now) >>= fun y => likesDis cv y) := rfl

set_option maxHeartbeats 1000000 in
/-- C7: for every serialized content text, a label `"<count> likes"`
whose count is a thousands-separated numeral sets `likes` to the
integer left after stripping separators, the literal `"No"` sets it to
0, and an absent label leaves it `None`; the same rule applies
independently to `"<count> dislikes"` (`countJson` states exactly that
mapping of the captured label text). -/
theorem C7_likes_parsing (cv : Json) (now : String)
    (hl : capOk (searchLabel (pyStr cv) "likes") = true)
    (hd : capOk (searchLabel (pyStr cv) "dislikes") = true) :
    fieldOf (extract_info now (likesBundle cv)) "likes" =
      .ok (some (countJson (searchLabel (pyStr cv) "likes"))) ∧
    fieldOf (extract_info now (likesBundle cv)) "dislikes" =
      .ok (some (countJson (searchLabel (pyStr cv) "dislikes"))) := by
  have base := extract_info_likesBundle now cv
  rcases hs1 : searchLabel (pyStr cv) "likes" with _ | c1 <;>
    rcases hs2 : searchLabel (pyStr cv) "dislikes" with _ | c2
  · rw [hs1] at base
    simp only [likesDis, hs2, likesFinal, exBindOk, exBindPure, exPureOk] at base
    refine ⟨?_, ?_⟩ <;> rw [base] <;> rfl
  · rw [hs1] at base; rw [hs2] at hd
    simp only [likesDis, hs2, likesFinal, exBindOk, exBindPure, exPureOk] at base
    rw [strToIntStripped_of_capOk c2 hd] at base
    simp only [exBindOk, exBindPure, exPureOk] at base
    refine ⟨?_, ?_⟩ <;> rw [base] <;> rfl
  · rw [hs1] at base; rw [hs1] at hl
    simp only [likesDis, hs2, likesFinal, exBindOk, exBindPure, exPureOk] at base
    rw [strToIntStripped_of_capOk c1 hl] at base
    simp only [exBindOk, exBindPure, exPureOk] at base
    refine ⟨?_, ?_⟩ <;> rw [base] <;> rfl
  · rw [hs1] at base; rw [hs1] at hl; rw [hs2] at hd
    simp only [likesDis, hs2, likesFinal, exBindOk, exBindPure, exPureOk] at base
    rw [strToIntStripped_of_capOk c1 hl] at base
    simp only [exBindOk, exBindPure, exPureOk] at base
    rw [strToIntStripped_of_capOk c2 hd] at base
    simp only [exBindOk, exBindPure, exPureOk] at base
    refine ⟨?_, ?_⟩ <;> rw [base] <;> rfl

set_option maxHeartbeats 1000000 in
/-- Witness for C7: a content subtree whose serialized text carries
the label text `1,234 likes` and no dislikes label yields
`likes = 1234` and `dislikes = None` (the spec's own examples). -/
theorem C7_witness :
    fieldOf (extract_info "T0" (likesBundle fxLikesContent)) "likes" =
      .ok (some (.num 1234)) ∧
    fieldOf (extract_info "T0" (likesBundle fxLikesContent)) "dislikes" =
      .ok (some .null) := by
  exact C7_likes_parsing fxLikesContent "T0" (by decide) (by decide)

/-- C8 counterexample: a missing `videoDetails` subtree makes
`extract_info` raise the untyped Python builtin `KeyError`, not a
typed library error; the library defines no `MalformedData` error
class at all (`ytinfo/exceptions.py` defines exactly `Error`,
`RetryError`, `TimeoutError`). -/
theorem C8_counterexample :
    extract_info "T0" fxNoDetailsBundle = .error (.keyError "videoDetails") ∧
    PyErr.isLibError (.keyError "videoDetails") = false ∧
    exceptionClasses = ["Error", "RetryError", "TimeoutError"] :=
  ⟨rfl, rfl, rfl⟩

/-- C8 (amended): for a bundle whose classified status is not
`ERROR`/`PRIVATE` but which lacks the `videoDetails` subtree,
`extract_info` fails with the Python builtin `KeyError` — an untyped
exception outside the library's error hierarchy — and no
`MalformedData` error exists in the library. -/
theorem C8_keyerror_amended (data ipr : Json) (now : String) (sv : Json)
    (h1 : get_status data = .ok sv)
    (h2 : (pyEqStr sv "ERROR" || pyEqStr sv "PRIVATE") = false)
    (h3 : getKey data "ytInitialPlayerResponse" = .ok ipr)
    (h4 : getKey ipr "videoDetails" = .error (.keyError "videoDetails")) :
    extract_info now data = .error (.keyError "videoDetails") ∧
    PyErr.isLibError (.keyError "videoDetails") = false ∧
    "MalformedData" ∉ exceptionClasses := by
  refine ⟨?_, rfl, by decide⟩
  simp only [extract_info]
  rw [h1, exBindOk, h2]
  simp only [Bool.false_eq_true, if_false]
  rw [h3, exBindOk, h4]
  rfl

/-- Witness for C8's amended theorem. -/
theorem C8_witness :
    extract_info "T1" fxNoDetailsBundle = .error (.keyError "videoDetails") ∧
    PyErr.isLibError (.keyError "videoDetails") = false ∧
    "MalformedData" ∉ exceptionClasses := by
  exact C8_keyerror_amended fxNoDetailsBundle
    (.obj [("playabilityStatus", .obj [("status", .str "OK")])])
    "T1" (.str "OK") rfl rfl rfl rfl

set_option maxHeartbeats 4000000 in
/-- C9 counterexample: the record does NOT always contain the
`chapters` key — when the chapter path is present and holds `null`,
the safe lookup returns that `None`, the `is not None` guard fires,
and the key is omitted. -/
theorem C9_counterexample :
    fieldOf (extract_info "T0" fxChNullBundle) "chapters" = .ok none := rfl

set_option maxHeartbeats 4000000 in
/-- C9 (amended): the `chapters` key is present whenever the chapter
path is absent (the empty-list default makes the guard pass, giving an
empty sequence) or holds a list; only a `null` value stored at the
path causes the key to be omitted. -/
theorem C9_chapters_amended :
    fieldOf (extract_info "T0" fxChMissingBundle) "chapters" =
      .ok (some (.arr [])) ∧
    (∀ t ms : Json, fieldOf (extract_info "T0" (fxChListBundle t ms)) "chapters" =
      .ok (some (.arr [.obj [("title", t), ("starttime", ms)]]))) :=
  ⟨rfl, fun _ _ => rfl⟩

/-- C10: the listing returned by `get_channel_videos` can contain
`None` elements: a first-page grid item that is not a continuation
marker and has neither the `videoRenderer` nor the `reelItemRenderer`
id path makes the or-chain of safe lookups yield `None`, which is
appended as-is. -/
theorem C10_none_in_listing :
    get_channel_videos fxTgetBad [] fxClock0 "chanid" 3 none =
      (.ok [Json.null], [.get 0 0, .get 1 0, .get 2 0]) := rfl

end Ytinfo
